import Mathlib

/-!
Shallow embedding of the task-manager request handlers in
`src/task_manager/app/app/views/tasks.py`, together with proofs of the
business rules stated in the specification.

Users are identified by their primary key (a natural number), dates by an
abstract natural number (`datetime.date.today()` is passed in as a
parameter).  Task status codes are the source's string literals
`"PLAN"`, `"PROG"`, `"COMP"`.  The database is a record of task rows and
comment rows; a handler takes the database and returns an `HttpResult`
that carries the database after the request, so that "no state change"
is expressible.
-/

namespace TaskManager

abbrev UserId := Nat

/-- `Team` rows: a leader and a set of members (`team.members.all()`). -/
structure Team where
  leader : UserId
  members : List UserId
deriving DecidableEq, Repr

/-- `Task` rows, with the fields the handlers in `tasks.py` touch:
creator, optional owning team, the `assigned_to` many-to-many set,
the status string, the date fields and `accepted_by`. -/
structure Task where
  id : Nat
  title : String
  creator : UserId
  team : Option Team
  assigned_to : List UserId
  status : String
  accepted_date : Option Nat
  accepted_by : Option UserId
  completed_date : Option Nat
deriving DecidableEq, Repr

/-- `Comment` rows as built in `task_comment`: author, task and body. -/
structure Comment where
  author : UserId
  task_id : Nat
  body : String
deriving DecidableEq, Repr

/-- The relational store the handlers read and write. -/
structure DB where
  tasks : List Task
  comments : List Comment
deriving DecidableEq, Repr

/-- Flash messages added through `django.contrib.messages`. -/
inductive Message where
  | success (text : String)
  | error (text : String)
deriving DecidableEq, Repr

/-- The body of a successful (HTTP 200/302) response: a redirect to a
task's detail page, a redirect to the index page, or a rendered
template.  Each carries the flash messages added during the request. -/
inductive Response where
  | redirectTask (task_id : Nat) (msgs : List Message)
  | redirectIndex (msgs : List Message)
  | render (template : String) (msgs : List Message)
deriving DecidableEq, Repr

/-- `true` exactly when the response re-renders a template (as opposed to
redirecting). -/
def Response.isRender : Response → Bool
  | Response.render _ _ => true
  | _ => false

/-- Outcome of one request.  Every constructor carries the database after
the request, so a handler that raised before mutating returns the input
database unchanged.  `crash` models an uncaught Python exception
(anything other than `PermissionDenied` / `Http404`). -/
inductive HttpResult where
  | ok (db : DB) (resp : Response)
  | permissionDenied (db : DB)
  | notFound (db : DB)
  | crash (db : DB)
deriving DecidableEq, Repr

/-- `get_object_or_404(Task, id=task_id)`: the task row with the given id. -/
def findTask (db : DB) (task_id : Nat) : Option Task :=
  db.tasks.find? (fun t => t.id == task_id)

/-- `task.save()` on an existing row: replace the row with the same id. -/
def saveTaskList (ts : List Task) (t : Task) : List Task :=
  ts.map (fun x => if x.id = t.id then t else x)

/-- `task.save()` lifted to the database. -/
def saveTask (db : DB) (t : Task) : DB :=
  { db with tasks := saveTaskList db.tasks t }

/-- `task.delete()`: remove the row with the given id. -/
def deleteTask (db : DB) (task_id : Nat) : DB :=
  { db with tasks := db.tasks.filter (fun t => !(t.id == task_id)) }

/-- Largest task id in use (0 when there are no tasks). -/
def maxTaskId (ts : List Task) : Nat :=
  ts.foldr (fun t m => max t.id m) 0

/-- The autoincrement primary key given to a newly saved task row. -/
def freshId (db : DB) : Nat := maxTaskId db.tasks + 1

/-- HTTP method of the request (the handlers accept GET and POST). -/
inductive Method where
  | GET
  | POST
deriving DecidableEq, Repr

/-- Data carried by a valid `TaskCreationForm`.

Modelled from the spec: `app/forms.py` and `app/models.py` are not part
of the excerpt.  Per the spec's data model, the creation form supplies
the task's title and optional owning team; `status` and the
`assigned_to` set are not form fields. -/
structure TaskFormData where
  title : String
  team : Option Team
deriving DecidableEq, Repr

/-- `TaskCreationForm.save(commit=False)`: the unsaved `Task` instance
built from a valid form.

Modelled from the spec: the `Task` model is not in the excerpt.  Per the
spec, a new task "starts with status PLAN", its date fields and
`accepted_by` are unset, and its `assigned_to` many-to-many set is empty
until rows are added after the first save. -/
def taskFromForm (d : TaskFormData) (id : Nat) : Task :=
  { id := id
    title := d.title
    creator := 0
    team := d.team
    assigned_to := []
    status := "PLAN"
    accepted_date := none
    accepted_by := none
    completed_date := none }

/-- Outcome of binding request data to a `TaskEditForm`.

Modelled from the spec: `app/forms.py` is not in the excerpt.  A valid
bound form, when saved, overwrites the instance's editable fields with
the submitted values (`edited`); an invalid form saves nothing. -/
inductive FormResult where
  | valid (edited : Task)
  | invalid
deriving Repr

/-- `task_create` (tasks.py lines 13-45): any authenticated user may
create a task.  On a valid POST the form's task is saved with
`creator = request.user`, then the creator is added to `assigned_to`
and the user is redirected to the new task.  `form = none` models
`form.is_valid()` returning false. -/
def task_create (u : UserId) (method : Method) (form : Option TaskFormData)
    (db : DB) : HttpResult :=
  match method with
  | Method.POST =>
    match form with
    | some d =>
      let new_task := { taskFromForm d (freshId db) with creator := u }
      let db1 : DB := { db with tasks := db.tasks ++ [new_task] }
      let new_task2 := { new_task with assigned_to := new_task.assigned_to ++ [u] }
      let db2 := saveTask db1 new_task2
      HttpResult.ok db2
        (Response.redirectTask new_task2.id
          [Message.success ("Task: `" ++ new_task2.title ++ "` is created successfully!")])
    | none =>
      HttpResult.ok db (Response.render "app/task_create-edit.html" [])
  | Method.GET =>
    HttpResult.ok db (Response.render "app/task_create-edit.html" [])

/-- `task_edit` (tasks.py lines 47-87): only allowed when
`request.user == task.creator and task.status == 'PLAN'`; otherwise
`PermissionDenied`.  On a valid POST the form is saved onto the task row;
on GET or an invalid POST the form template is rendered. -/
def task_edit (u : UserId) (task_id : Nat) (method : Method)
    (form : FormResult) (db : DB) : HttpResult :=
  match findTask db task_id with
  | none => HttpResult.notFound db
  | some task =>
    if u = task.creator ∧ task.status = "PLAN" then
      match method with
      | Method.POST =>
        match form with
        | FormResult.valid edited =>
          HttpResult.ok (saveTask db { edited with id := task.id })
            (Response.redirectTask task.id
              [Message.success "The changes are saved successfully!"])
        | FormResult.invalid =>
          HttpResult.ok db (Response.render "app/task_create-edit.html" [])
      | Method.GET =>
        HttpResult.ok db (Response.render "app/task_create-edit.html" [])
    else
      HttpResult.permissionDenied db

/-- `task_delete` (tasks.py lines 89-103): only allowed when
`request.user == task.creator and task.status == 'PLAN'`; on success the
row is deleted and the user redirected to the index page, otherwise
`PermissionDenied`. -/
def task_delete (u : UserId) (task_id : Nat) (db : DB) : HttpResult :=
  match findTask db task_id with
  | none => HttpResult.notFound db
  | some task =>
    if u = task.creator ∧ task.status = "PLAN" then
      HttpResult.ok (deleteTask db task.id)
        (Response.redirectIndex
          [Message.success "The task is deleted successfully!"])
    else
      HttpResult.permissionDenied db

/-- `tasks` view (tasks.py lines 105-119): the list rendered for the
requester, namely
`Task.objects.filter(Q(creator=u)|Q(assigned_to=u)).exclude(status="COMP").distinct()`. -/
def tasks_view (u : UserId) (db : DB) : List Task :=
  (((db.tasks.filter
      (fun t => t.creator == u || t.assigned_to.contains u)).filter
      (fun t => !(t.status == "COMP")))).dedup

/-- `completed_tasks` view (tasks.py lines 121-135): the list rendered
for the requester, namely
`Task.objects.filter(Q(creator=u)|Q(assigned_to=u)).filter(status="COMP").distinct()`. -/
def completed_tasks_view (u : UserId) (db : DB) : List Task :=
  (((db.tasks.filter
      (fun t => t.creator == u || t.assigned_to.contains u)).filter
      (fun t => t.status == "COMP"))).dedup

/-- The `allowed` computation inlined in `task_detail`
(tasks.py lines 144-152): creator, assignee, or member of the task's
team when it has one. -/
def task_detail_allowed (u : UserId) (task : Task) : Bool :=
  if u = task.creator ∨ u ∈ task.assigned_to then
    true
  else
    match task.team with
    | some team => if u ∈ team.members then true else false
    | none => false

/-- `task_detail` (tasks.py lines 137-161): renders the detail template
when `allowed`, else `PermissionDenied`. -/
def task_detail (u : UserId) (task_id : Nat) (db : DB) : HttpResult :=
  match findTask db task_id with
  | none => HttpResult.notFound db
  | some _task =>
    if task_detail_allowed u _task then
      HttpResult.ok db (Response.render "app/task_detail.html" [])
    else
      HttpResult.permissionDenied db

/-- `task_accept` (tasks.py lines 163-182): only assigned users may
accept, and only while the status is `'PLAN'`; on success the status
becomes `'PROG'`, `accepted_date` today's date and `accepted_by` the
requester. -/
def task_accept (today : Nat) (u : UserId) (task_id : Nat) (db : DB) :
    HttpResult :=
  match findTask db task_id with
  | none => HttpResult.notFound db
  | some task =>
    if u ∈ task.assigned_to then
      if task.status = "PLAN" then
        let task2 := { task with
          status := "PROG"
          accepted_date := some today
          accepted_by := some u }
        HttpResult.ok (saveTask db task2)
          (Response.redirectTask task.id
            [Message.success "The task has marked as In-Progress successfully!"])
      else
        HttpResult.permissionDenied db
    else
      HttpResult.permissionDenied db

/-- `task_mark_completed` (tasks.py lines 184-202): only the creator or
an assigned user may mark completed, and only while the status is
`'PROG'`; on success the status becomes `'COMP'` and `completed_date`
today's date. -/
def task_mark_completed (today : Nat) (u : UserId) (task_id : Nat)
    (db : DB) : HttpResult :=
  match findTask db task_id with
  | none => HttpResult.notFound db
  | some task =>
    if u = task.creator ∨ u ∈ task.assigned_to then
      if task.status = "PROG" then
        let task2 := { task with
          status := "COMP"
          completed_date := some today }
        HttpResult.ok (saveTask db task2)
          (Response.redirectTask task.id
            [Message.success "The task is marked as Completed successfully!"])
      else
        HttpResult.permissionDenied db
    else
      HttpResult.permissionDenied db

/-- Python's `str.strip()`: remove leading and trailing whitespace. -/
def pyStrip (s : String) : String :=
  String.mk
    ((s.data.dropWhile Char.isWhitespace).reverse.dropWhile
      Char.isWhitespace).reverse

/-- The `allowed` computation inlined in `task_comment`
(tasks.py lines 211-219); the source duplicates the `task_detail`
computation verbatim. -/
def task_comment_allowed (u : UserId) (task : Task) : Bool :=
  if u = task.creator ∨ u ∈ task.assigned_to then
    true
  else
    match task.team with
    | some team => if u ∈ team.members then true else false
    | none => false

/-- `task_comment` (tasks.py lines 204-236).  `post` is the POST data as
key-value pairs.  When allowed, the source evaluates
`request.POST.get('comment_body').strip()`: if the key is absent,
`get` returns `None` and `.strip()` raises `AttributeError` (modelled
by `crash`); if the stripped body is non-empty a `Comment` row storing
the unstripped body is saved and the user redirected with a success
message; otherwise an error message is flashed and the user redirected
with no row created. -/
def task_comment (u : UserId) (task_id : Nat)
    (post : List (String × String)) (db : DB) : HttpResult :=
  match findTask db task_id with
  | none => HttpResult.notFound db
  | some task =>
    if task_comment_allowed u task then
      match post.lookup "comment_body" with
      | none => HttpResult.crash db
      | some body =>
        if pyStrip body ≠ "" then
          let comment : Comment := { author := u, task_id := task.id, body := body }
          HttpResult.ok { db with comments := db.comments ++ [comment] }
            (Response.redirectTask task.id
              [Message.success "The comment is added succesfully"])
        else
          HttpResult.ok db
            (Response.redirectTask task.id
              [Message.error "Missing required fields"])
    else
      HttpResult.permissionDenied db

/-! Helper lemmas about ids and row updates. -/

theorem id_le_maxTaskId {t : Task} {ts : List Task} (h : t ∈ ts) :
    t.id ≤ maxTaskId ts := by
  induction ts with
  | nil => cases h
  | cons a l ih =>
    simp only [maxTaskId, List.foldr_cons]
    rcases List.mem_cons.mp h with h | h
    · subst h
      exact Nat.le_max_left _ _
    · exact Nat.le_trans (ih h) (Nat.le_max_right _ _)

theorem saveTaskList_of_not_mem (ts : List Task) (t : Task)
    (h : ∀ x ∈ ts, x.id ≠ t.id) : saveTaskList ts t = ts := by
  induction ts with
  | nil => rfl
  | cons a l ih =>
    have ha : ¬ a.id = t.id := h a (List.mem_cons_self a l)
    have hl : saveTaskList l t = l :=
      ih (fun x hx => h x (List.mem_cons_of_mem a hx))
    simp only [saveTaskList, List.map_cons, if_neg ha]
    exact congrArg (List.cons a) hl

theorem saveTaskList_append_fresh (ts : List Task) (t t2 : Task)
    (hid : t.id = t2.id) (h : ∀ x ∈ ts, x.id ≠ t2.id) :
    saveTaskList (ts ++ [t]) t2 = ts ++ [t2] := by
  have h1 : saveTaskList ts t2 = ts := saveTaskList_of_not_mem ts t2 h
  simp only [saveTaskList, List.map_append] at h1 ⊢
  rw [h1]
  simp [hid]

/-! Concrete fixtures used by the witness theorems. -/

/-- A team led by user 1 with members 1, 2 and 4. -/
def exTeam : Team := { leader := 1, members := [1, 2, 4] }

/-- A planned task created by user 1, assigned to users 1 and 2, no team. -/
def exTask : Task :=
  { id := 1
    title := "demo"
    creator := 1
    team := none
    assigned_to := [1, 2]
    status := "PLAN"
    accepted_date := none
    accepted_by := none
    completed_date := none }

/-- An in-progress task created by user 1, assigned to users 1 and 2. -/
def exTaskProg : Task := { exTask with id := 2, status := "PROG" }

/-- A database with one planned and one in-progress task and no comments. -/
def exDB : DB := { tasks := [exTask, exTaskProg], comments := [] }

/-! Claim theorems. -/

/-- C1: `task_accept` succeeds exactly when the requester is in the
task's `assigned_to` set and the status is `'PLAN'`; on success the
status becomes `'PROG'`, `accepted_date` today's date and `accepted_by`
the requester, and only that task row changes; in every other case the
handler raises `PermissionDenied` and the database is unchanged. -/
theorem C1_task_accept_gating (today : Nat) (u : UserId) (tid : Nat)
    (db : DB) (task : Task) (hfind : findTask db tid = some task) :
    (u ∈ task.assigned_to ∧ task.status = "PLAN" →
      task_accept today u tid db =
        HttpResult.ok
          (saveTask db { task with
            status := "PROG"
            accepted_date := some today
            accepted_by := some u })
          (Response.redirectTask task.id
            [Message.success "The task has marked as In-Progress successfully!"]))
  ∧ (¬(u ∈ task.assigned_to ∧ task.status = "PLAN") →
      task_accept today u tid db = HttpResult.permissionDenied db) := by
  constructor
  · rintro ⟨h1, h2⟩
    simp [task_accept, hfind, h1, h2]
  · intro h
    by_cases h1 : u ∈ task.assigned_to
    · by_cases h2 : task.status = "PLAN"
      · exact absurd ⟨h1, h2⟩ h
      · simp [task_accept, hfind, h1, h2]
    · simp [task_accept, hfind, h1]

/-- Witness for C1: user 2 is assigned to the planned task 1 of `exDB`,
so accepting on day 7 updates it to in-progress with the recorded
acceptance data. -/
theorem C1_task_accept_gating_witness :
    task_accept 7 2 1 exDB =
      HttpResult.ok
        (saveTask exDB { exTask with
          status := "PROG"
          accepted_date := some 7
          accepted_by := some 2 })
        (Response.redirectTask exTask.id
          [Message.success "The task has marked as In-Progress successfully!"]) :=
  (C1_task_accept_gating 7 2 1 exDB exTask rfl).1 (by decide)

/-- C2: `task_mark_completed` succeeds exactly when the requester is the
creator or assigned and the status is `'PROG'`; on success the status
becomes `'COMP'` and `completed_date` today's date, and only that task
row changes; in every other case the handler raises `PermissionDenied`
and the database is unchanged. -/
theorem C2_task_mark_completed_gating (today : Nat) (u : UserId)
    (tid : Nat) (db : DB) (task : Task)
    (hfind : findTask db tid = some task) :
    ((u = task.creator ∨ u ∈ task.assigned_to) ∧ task.status = "PROG" →
      task_mark_completed today u tid db =
        HttpResult.ok
          (saveTask db { task with
            status := "COMP"
            completed_date := some today })
          (Response.redirectTask task.id
            [Message.success "The task is marked as Completed successfully!"]))
  ∧ (¬((u = task.creator ∨ u ∈ task.assigned_to) ∧ task.status = "PROG") →
      task_mark_completed today u tid db = HttpResult.permissionDenied db) := by
  constructor
  · rintro ⟨h1, h2⟩
    simp [task_mark_completed, hfind, h1, h2]
  · intro h
    by_cases h1 : u = task.creator ∨ u ∈ task.assigned_to
    · by_cases h2 : task.status = "PROG"
      · exact absurd ⟨h1, h2⟩ h
      · simp [task_mark_completed, hfind, h1, h2]
    · simp [task_mark_completed, hfind, h1]

/-- Witness for C2: user 1 created the in-progress task 2 of `exDB`, so
marking it completed on day 9 records the completion. -/
theorem C2_task_mark_completed_gating_witness :
    task_mark_completed 9 1 2 exDB =
      HttpResult.ok
        (saveTask exDB { exTaskProg with
          status := "COMP"
          completed_date := some 9 })
        (Response.redirectTask exTaskProg.id
          [Message.success "The task is marked as Completed successfully!"]) :=
  (C2_task_mark_completed_gating 9 1 2 exDB exTaskProg rfl).1 (by decide)

/-- C3: `task_delete` and `task_edit` succeed exactly when the requester
is the task's creator and the status is `'PLAN'`; otherwise both raise
`PermissionDenied`, the database is unchanged, and in particular the
task row is still found after a failed delete. -/
theorem C3_delete_edit_gating (u : UserId) (tid : Nat) (method : Method)
    (form : FormResult) (db : DB) (task : Task)
    (hfind : findTask db tid = some task) :
    (u = task.creator ∧ task.status = "PLAN" →
      task_delete u tid db =
        HttpResult.ok (deleteTask db task.id)
          (Response.redirectIndex
            [Message.success "The task is deleted successfully!"]) ∧
      ∃ db2 r, task_edit u tid method form db = HttpResult.ok db2 r)
  ∧ (¬(u = task.creator ∧ task.status = "PLAN") →
      task_delete u tid db = HttpResult.permissionDenied db ∧
      task_edit u tid method form db = HttpResult.permissionDenied db ∧
      findTask db tid = some task) := by
  constructor
  · rintro ⟨h1, h2⟩
    refine ⟨by simp [task_delete, hfind, h1, h2], ?_⟩
    cases method with
    | POST =>
      cases form with
      | valid edited =>
        refine ⟨saveTask db { edited with id := task.id },
          Response.redirectTask task.id
            [Message.success "The changes are saved successfully!"], ?_⟩
        simp [task_edit, hfind, h1, h2]
      | invalid =>
        refine ⟨db, Response.render "app/task_create-edit.html" [], ?_⟩
        simp [task_edit, hfind, h1, h2]
    | GET =>
      refine ⟨db, Response.render "app/task_create-edit.html" [], ?_⟩
      simp [task_edit, hfind, h1, h2]
  · intro h
    exact ⟨by simp [task_delete, hfind, h], by simp [task_edit, hfind, h], hfind⟩

/-- Witness for C3: the creator (user 1) can delete the planned task 1
of `exDB`; user 3, who is not the creator, gets `PermissionDenied` from
edit with the database untouched. -/
theorem C3_delete_edit_gating_witness :
    task_delete 1 1 exDB =
      HttpResult.ok (deleteTask exDB 1)
        (Response.redirectIndex
          [Message.success "The task is deleted successfully!"]) ∧
    task_edit 3 1 Method.GET FormResult.invalid exDB =
      HttpResult.permissionDenied exDB := by
  have h1 :=
    (C3_delete_edit_gating 1 1 Method.GET FormResult.invalid exDB exTask rfl).1
      (by decide)
  have h2 :=
    (C3_delete_edit_gating 3 1 Method.GET FormResult.invalid exDB exTask rfl).2
      (by decide)
  exact ⟨h1.1, h2.2.1⟩

/-- C4: on a valid POST, `task_create` appends exactly one task row,
whose creator is the requester, whose status is `'PLAN'` and whose
`assigned_to` set is exactly the requester, and redirects to it. -/
theorem C4_task_create_initial_state (u : UserId) (d : TaskFormData)
    (db : DB) :
    ∃ t : Task, t.creator = u ∧ t.status = "PLAN" ∧ t.assigned_to = [u] ∧
      task_create u Method.POST (some d) db =
        HttpResult.ok { db with tasks := db.tasks ++ [t] }
          (Response.redirectTask t.id
            [Message.success
              ("Task: `" ++ t.title ++ "` is created successfully!")]) := by
  have hfresh : ∀ x ∈ db.tasks, x.id ≠ freshId db := by
    intro x hx
    have h := id_le_maxTaskId hx
    simp only [freshId]
    omega
  refine ⟨{ taskFromForm d (freshId db) with creator := u, assigned_to := [u] },
    rfl, rfl, rfl, ?_⟩
  simp only [task_create, saveTask, taskFromForm]
  rw [saveTaskList_append_fresh _ _ _ (by rfl) (by exact hfresh)]
  simp only [List.nil_append]

/-- C5: the open-tasks view contains exactly the requester's
creator-or-assignee tasks whose status is not `'COMP'`, the
completed-tasks view exactly those whose status is `'COMP'`, and the two
views partition the requester's creator-or-assignee tasks. -/
theorem C5_views_partition (u : UserId) (db : DB) (t : Task) :
    (t ∈ tasks_view u db ↔
      t ∈ db.tasks ∧ (t.creator = u ∨ u ∈ t.assigned_to) ∧
        ¬ t.status = "COMP")
  ∧ (t ∈ completed_tasks_view u db ↔
      t ∈ db.tasks ∧ (t.creator = u ∨ u ∈ t.assigned_to) ∧
        t.status = "COMP")
  ∧ (t ∈ db.tasks ∧ (t.creator = u ∨ u ∈ t.assigned_to) →
      (t ∈ tasks_view u db ↔ t ∉ completed_tasks_view u db)) := by
  have h1 : t ∈ tasks_view u db ↔
      t ∈ db.tasks ∧ (t.creator = u ∨ u ∈ t.assigned_to) ∧
        ¬ t.status = "COMP" := by
    simp only [tasks_view, List.mem_dedup, List.mem_filter, Bool.or_eq_true,
      beq_iff_eq, List.contains, List.elem_iff, decide_eq_true_eq, Bool.not_eq_true',
      beq_eq_false_iff_ne, ne_eq, and_assoc]
  have h2 : t ∈ completed_tasks_view u db ↔
      t ∈ db.tasks ∧ (t.creator = u ∨ u ∈ t.assigned_to) ∧
        t.status = "COMP" := by
    simp only [completed_tasks_view, List.mem_dedup, List.mem_filter,
      Bool.or_eq_true, beq_iff_eq, List.contains, List.elem_iff, decide_eq_true_eq,
      and_assoc]
  refine ⟨h1, h2, fun h => ?_⟩
  rw [h1, h2]
  tauto

/-- Witness for C5: the planned task of `exDB` is listed for user 2 in
the open view and not in the completed view. -/
theorem C5_views_partition_witness :
    exTask ∈ tasks_view 2 exDB ↔ exTask ∉ completed_tasks_view 2 exDB :=
  (C5_views_partition 2 exDB exTask).2.2 (by decide)

/-- C6: the `allowed` predicate of `task_detail` and the `allowed`
predicate of `task_comment` are extensionally equal, and both hold
exactly when the requester is the creator, an assignee, or a member of
the task's team when the task has one. -/
theorem C6_detail_comment_same_predicate (u : UserId) (t : Task) :
    task_detail_allowed u t = task_comment_allowed u t
  ∧ (task_detail_allowed u t = true ↔
      u = t.creator ∨ u ∈ t.assigned_to ∨
        ∃ tm, t.team = some tm ∧ u ∈ tm.members) := by
  refine ⟨rfl, ?_⟩
  simp only [task_detail_allowed]
  by_cases h : u = t.creator ∨ u ∈ t.assigned_to
  · simp only [if_pos h, true_iff]
    tauto
  · simp only [if_neg h]
    cases ht : t.team with
    | none =>
      simp only [ht]
      constructor
      · intro hfalse
        cases hfalse
      · intro hor
        rcases hor with h1 | h1 | ⟨tm, htm, _⟩
        · exact absurd (Or.inl h1) h
        · exact absurd (Or.inr h1) h
        · cases htm
    | some tm =>
      simp only [ht]
      by_cases hm : u ∈ tm.members
      · simp only [if_pos hm, true_iff]
        exact Or.inr (Or.inr ⟨tm, rfl, hm⟩)
      · simp only [if_neg hm]
        constructor
        · intro hfalse
          cases hfalse
        · intro hor
          rcases hor with h1 | h1 | ⟨tm2, htm2, hm2⟩
          · exact absurd (Or.inl h1) h
          · exact absurd (Or.inr h1) h
          · rw [Option.some_inj] at htm2
            exact absurd (htm2 ▸ hm2) hm

/-- C7: whenever a handler's authorization predicate fails, the handler
raises `PermissionDenied` and returns the database exactly as it was:
no task field changed, no row created or deleted. -/
theorem C7_denied_handlers_preserve_state (today : Nat) (u : UserId)
    (tid : Nat) (method : Method) (form : FormResult)
    (post : List (String × String)) (db : DB) (task : Task)
    (hfind : findTask db tid = some task) :
    (¬(u = task.creator ∧ task.status = "PLAN") →
      task_edit u tid method form db = HttpResult.permissionDenied db ∧
      task_delete u tid db = HttpResult.permissionDenied db)
  ∧ (¬(u ∈ task.assigned_to ∧ task.status = "PLAN") →
      task_accept today u tid db = HttpResult.permissionDenied db)
  ∧ (¬((u = task.creator ∨ u ∈ task.assigned_to) ∧ task.status = "PROG") →
      task_mark_completed today u tid db = HttpResult.permissionDenied db)
  ∧ (task_comment_allowed u task = false →
      task_comment u tid post db = HttpResult.permissionDenied db)
  ∧ (task_detail_allowed u task = false →
      task_detail u tid db = HttpResult.permissionDenied db) := by
  refine ⟨?_, ?_, ?_, ?_, ?_⟩
  · intro h
    exact ⟨by simp [task_edit, hfind, h], by simp [task_delete, hfind, h]⟩
  · intro h
    by_cases h1 : u ∈ task.assigned_to
    · by_cases h2 : task.status = "PLAN"
      · exact absurd ⟨h1, h2⟩ h
      · simp [task_accept, hfind, h1, h2]
    · simp [task_accept, hfind, h1]
  · intro h
    by_cases h1 : u = task.creator ∨ u ∈ task.assigned_to
    · by_cases h2 : task.status = "PROG"
      · exact absurd ⟨h1, h2⟩ h
      · simp [task_mark_completed, hfind, h1, h2]
    · simp [task_mark_completed, hfind, h1]
  · intro h
    simp [task_comment, hfind, h]
  · intro h
    simp [task_detail, hfind, h]

/-- Witness for C7: user 3 is neither creator, assignee, nor team member
of task 1 in `exDB`, so delete, accept, comment and detail all raise
`PermissionDenied` with the database untouched. -/
theorem C7_denied_handlers_preserve_state_witness :
    task_delete 3 1 exDB = HttpResult.permissionDenied exDB ∧
    task_accept 0 3 1 exDB = HttpResult.permissionDenied exDB ∧
    task_comment 3 1 [("comment_body", "hello")] exDB =
      HttpResult.permissionDenied exDB ∧
    task_detail 3 1 exDB = HttpResult.permissionDenied exDB := by
  have h := C7_denied_handlers_preserve_state 0 3 1 Method.GET
    FormResult.invalid [("comment_body", "hello")] exDB exTask rfl
  exact ⟨(h.1 (by decide)).2, h.2.1 (by decide), h.2.2.2.1 (by decide),
    h.2.2.2.2 (by decide)⟩

/-- C8 counterexample: an authorized whitespace-only comment on task 1
of `exDB` creates no Comment row, but the response is a redirect back to
the task carrying a flash error message, not a re-rendered form. -/
theorem C8_whitespace_comment_counterexample :
    task_comment 1 1 [("comment_body", "   ")] exDB =
      HttpResult.ok exDB
        (Response.redirectTask 1 [Message.error "Missing required fields"])
    ∧ (Response.redirectTask 1
        [Message.error "Missing required fields"]).isRender = false := by
  exact ⟨by decide, rfl⟩

/-- C8 (amended): for every authorized requester, a body that is empty
or whitespace-only after trimming creates no Comment row; the handler
flashes the user-visible error message "Missing required fields" and
redirects back to the task's page (it does not re-render the form). -/
theorem C8_whitespace_comment_no_row (u : UserId) (tid : Nat)
    (post : List (String × String)) (db : DB) (task : Task) (body : String)
    (hfind : findTask db tid = some task)
    (hallow : task_comment_allowed u task = true)
    (hbody : post.lookup "comment_body" = some body)
    (htrim : pyStrip body = "") :
    task_comment u tid post db =
      HttpResult.ok db
        (Response.redirectTask task.id
          [Message.error "Missing required fields"]) := by
  simp [task_comment, hfind, hallow, hbody, htrim]

/-- Witness for C8 (amended): user 2 is assigned to task 1 of `exDB`;
a whitespace-only body leaves the database unchanged and redirects with
the error message. -/
theorem C8_whitespace_comment_no_row_witness :
    task_comment 2 1 [("comment_body", " \t ")] exDB =
      HttpResult.ok exDB
        (Response.redirectTask 1 [Message.error "Missing required fields"]) :=
  C8_whitespace_comment_no_row 2 1 [("comment_body", " \t ")] exDB exTask
    " \t " rfl (by decide) rfl (by decide)

/-- C9: for every authorized requester and body that is non-empty after
trimming, the comment row stores the submitted body verbatim — trimming
is only used for the emptiness test, not applied to the stored text. -/
theorem C9_comment_body_stored_verbatim (u : UserId) (tid : Nat)
    (post : List (String × String)) (db : DB) (task : Task) (body : String)
    (hfind : findTask db tid = some task)
    (hallow : task_comment_allowed u task = true)
    (hbody : post.lookup "comment_body" = some body)
    (htrim : pyStrip body ≠ "") :
    task_comment u tid post db =
      HttpResult.ok
        { db with comments :=
            db.comments ++ [{ author := u, task_id := task.id, body := body }] }
        (Response.redirectTask task.id
          [Message.success "The comment is added succesfully"]) := by
  simp [task_comment, hfind, hallow, hbody, htrim]

/-- Witness for C9: the stored body keeps its leading and trailing
whitespace. -/
theorem C9_comment_body_stored_verbatim_witness :
    task_comment 1 1 [("comment_body", "  padded body  ")] exDB =
      HttpResult.ok
        { exDB with comments :=
            exDB.comments ++
              [{ author := 1, task_id := 1, body := "  padded body  " }] }
        (Response.redirectTask 1
          [Message.success "The comment is added succesfully"]) :=
  C9_comment_body_stored_verbatim 1 1 [("comment_body", "  padded body  ")]
    exDB exTask "  padded body  " rfl (by decide) rfl (by decide)

/-- C10: an authorized POST whose data has no `comment_body` key makes
`request.POST.get('comment_body')` return `None`, so `.strip()` raises
an uncaught exception (modelled as `crash`) instead of reaching the
validation-error branch. -/
theorem C10_missing_comment_key_crashes (u : UserId) (tid : Nat)
    (post : List (String × String)) (db : DB) (task : Task)
    (hfind : findTask db tid = some task)
    (hallow : task_comment_allowed u task = true)
    (hkey : post.lookup "comment_body" = none) :
    task_comment u tid post db = HttpResult.crash db := by
  simp [task_comment, hfind, hallow, hkey]

/-- Witness for C10: an authorized POST with empty form data crashes. -/
theorem C10_missing_comment_key_crashes_witness :
    task_comment 2 1 [] exDB = HttpResult.crash exDB :=
  C10_missing_comment_key_crashes 2 1 [] exDB exTask rfl (by decide) rfl

end TaskManager
